import Mathlib

/-!
Shallow embedding of `autokeras/auto_model.py` (graph assembly and the
multi-IO data-adaptation pipeline of `AutoModel`), together with theorems
settling the specification claims about it.

Python values relevant to the pipeline are modelled by `PyObj`; `tf.nest`
structures by `Nest`; Python exceptions by `PyError`.  External collaborator
behaviour that is not part of `auto_model.py` (the `data_utils` helpers,
`graph_module.Graph`) is modelled from the spec and marked as such in the
doc comment of the corresponding definition.
-/

/-- A `tf.nest` structure of tensor shapes: either a single shape
(a list of dimensions) or a tuple of nested structures.  This models the
element structure of a `tf.data.Dataset` as observed through
`data_utils.dataset_shape`. -/
inductive Nest where
  | leaf (shape : List Nat) : Nest
  | tup (xs : List Nest) : Nest
deriving Repr

mutual

def Nest.decEq : (a b : Nest) → Decidable (a = b)
  | .leaf s, .leaf t =>
    match List.hasDecEq s t with
    | isTrue h => isTrue (by rw [h])
    | isFalse h => isFalse (by intro he; injection he; contradiction)
  | .leaf _, .tup _ => isFalse (fun h => Nest.noConfusion h)
  | .tup _, .leaf _ => isFalse (fun h => Nest.noConfusion h)
  | .tup xs, .tup ys =>
    match Nest.decEqList xs ys with
    | isTrue h => isTrue (by rw [h])
    | isFalse h => isFalse (by intro he; injection he; contradiction)

def Nest.decEqList : (a b : List Nest) → Decidable (a = b)
  | [], [] => isTrue rfl
  | [], _ :: _ => isFalse (fun h => List.noConfusion h)
  | _ :: _, [] => isFalse (fun h => List.noConfusion h)
  | x :: xs, y :: ys =>
    match Nest.decEq x y, Nest.decEqList xs ys with
    | isTrue h1, isTrue h2 => isTrue (by rw [h1, h2])
    | isFalse h1, _ => isFalse (by intro he; injection he; contradiction)
    | isTrue _, isFalse h2 => isFalse (by intro he; injection he; contradiction)

end

instance : DecidableEq Nest := Nest.decEq

/-- Whether a nest is a tuple (Python `isinstance(shape, tuple)`). -/
def Nest.isTup : Nest → Bool
  | .leaf _ => false
  | .tup _ => true

mutual

/-- `tf.nest.flatten` on a shape structure: the list of leaf shapes in
left-to-right order. -/
def nestFlatten : Nest → List (List Nat)
  | .leaf s => [s]
  | .tup xs => nestFlattenList xs

def nestFlattenList : List Nest → List (List Nat)
  | [] => []
  | x :: xs => nestFlatten x ++ nestFlattenList xs

end

/-- Modelled from the spec: `data_utils.dataset_shape` is not under `src/`;
per the spec's prediction de-structuring contract it exposes the dataset's
top-level element structure, which we model as the list of top-level
components (a single-tensor element is a one-component structure). -/
def dataset_shape : Nest → List Nest
  | .leaf s => [.leaf s]
  | .tup xs => xs

/-- A Python value appearing as `x`/`y` data in the pipeline: a
`tf.data.Dataset` (with its element structure and its number of elements),
a numpy array (with its shape), a tuple/list of values, or `None`. -/
inductive PyObj where
  | dataset (struct : Nest) (n : Nat) : PyObj
  | arr (shape : List Nat) : PyObj
  | tupObj (xs : List PyObj) : PyObj
  | pynone : PyObj
deriving Repr

mutual

def PyObj.decEq : (a b : PyObj) → Decidable (a = b)
  | .dataset s n, .dataset t m =>
    match Nest.decEq s t, Nat.decEq n m with
    | isTrue h1, isTrue h2 => isTrue (by rw [h1, h2])
    | isFalse h1, _ => isFalse (by intro he; injection he; contradiction)
    | isTrue _, isFalse h2 => isFalse (by intro he; injection he; contradiction)
  | .arr s, .arr t =>
    match List.hasDecEq s t with
    | isTrue h => isTrue (by rw [h])
    | isFalse h => isFalse (by intro he; injection he; contradiction)
  | .tupObj xs, .tupObj ys =>
    match PyObj.decEqList xs ys with
    | isTrue h => isTrue (by rw [h])
    | isFalse h => isFalse (by intro he; injection he; contradiction)
  | .pynone, .pynone => isTrue rfl
  | .dataset _ _, .arr _ => isFalse (fun h => PyObj.noConfusion h)
  | .dataset _ _, .tupObj _ => isFalse (fun h => PyObj.noConfusion h)
  | .dataset _ _, .pynone => isFalse (fun h => PyObj.noConfusion h)
  | .arr _, .dataset _ _ => isFalse (fun h => PyObj.noConfusion h)
  | .arr _, .tupObj _ => isFalse (fun h => PyObj.noConfusion h)
  | .arr _, .pynone => isFalse (fun h => PyObj.noConfusion h)
  | .tupObj _, .dataset _ _ => isFalse (fun h => PyObj.noConfusion h)
  | .tupObj _, .arr _ => isFalse (fun h => PyObj.noConfusion h)
  | .tupObj _, .pynone => isFalse (fun h => PyObj.noConfusion h)
  | .pynone, .dataset _ _ => isFalse (fun h => PyObj.noConfusion h)
  | .pynone, .arr _ => isFalse (fun h => PyObj.noConfusion h)
  | .pynone, .tupObj _ => isFalse (fun h => PyObj.noConfusion h)

def PyObj.decEqList : (a b : List PyObj) → Decidable (a = b)
  | [], [] => isTrue rfl
  | [], _ :: _ => isFalse (fun h => List.noConfusion h)
  | _ :: _, [] => isFalse (fun h => List.noConfusion h)
  | x :: xs, y :: ys =>
    match PyObj.decEq x y, PyObj.decEqList xs ys with
    | isTrue h1, isTrue h2 => isTrue (by rw [h1, h2])
    | isFalse h1, _ => isFalse (by intro he; injection he; contradiction)
    | isTrue _, isFalse h2 => isFalse (by intro he; injection he; contradiction)

end

instance : DecidableEq PyObj := PyObj.decEq

mutual

/-- `tf.nest.flatten` on a Python value: flattens tuples/lists recursively;
datasets, arrays and `None` are leaves. -/
def pyFlatten : PyObj → List PyObj
  | .tupObj xs => pyFlattenList xs
  | o => [o]

def pyFlattenList : List PyObj → List PyObj
  | [] => []
  | x :: xs => pyFlatten x ++ pyFlattenList xs

end

/-- Whether the value is a `tf.data.Dataset` (`isinstance(x, tf.data.Dataset)`). -/
def PyObj.isDataset : PyObj → Bool
  | .dataset _ _ => true
  | _ => false

/-- The number of elements of the `tf.data.Dataset` a value is converted to
by an Adapter.  Modelled from the spec: Adapters are external; the spec's
Canonical Dataset invariant says element count never changes, so an array's
count is its leading dimension and a dataset keeps its own count. -/
def objCount : PyObj → Nat
  | .dataset _ n => n
  | .arr (n :: _) => n
  | .arr [] => 0
  | .tupObj _ => 0
  | .pynone => 0

/-- A Python exception as raised (or hit) by `auto_model.py`.  The first
five constructors are the explicit `raise ValueError(...)` sites of the
file and carry the data their messages format in; the remaining
constructors are runtime errors of the Python interpreter (crashes that
are not explicitly raised by the file). -/
inductive PyError where
  | expectYNone (inValidation : Bool) : PyError
  | xArity (inValidation : Bool) (expected actual : Nat) : PyError
  | yArity (inValidation : Bool) (expected actual : Nat) : PyError
  | missingValidation : PyError
  | invalidTuner (t : String) : PyError
  | attributeErr : PyError
  | unpackErr : PyError
  | indexErr : PyError
  | typeErr : PyError
  | unboundLocalErr : PyError
deriving Repr, DecidableEq

/-- The `in_val` fragment spliced into the data-format error messages. -/
def inValStr (inValidation : Bool) : String :=
  if inValidation then " in validation_data" else ""

/-- The formatted message of each explicitly raised `ValueError` of
`auto_model.py` (empty for interpreter-level errors, which carry no
message written by this file). -/
def PyError.msg : PyError → String
  | .expectYNone v =>
      "Expect y is None when x is tf.data.Dataset" ++ inValStr v ++ "."
  | .xArity v exp act =>
      "Expect x" ++ inValStr v ++ " to have " ++ toString exp ++
        " arrays, but got " ++ toString act
  | .yArity v exp act =>
      "Expect y" ++ inValStr v ++ " to have " ++ toString exp ++
        " arrays, but got " ++ toString act
  | .missingValidation =>
      "Either validation_data or validation_split should be provided."
  | .invalidTuner t =>
      "The value " ++ t ++ " passed for argument tuner is invalid, " ++
        "expected one of \"greedy\", \"random\", \"hyperband\", \"bayesian\"."
  | _ => ""

/-- Whether the error corresponds to an explicit `raise ValueError(...)`
statement in `auto_model.py` (as opposed to an interpreter-level crash
such as `IndexError` or `UnboundLocalError`). -/
def PyError.isExplicitRaise : PyError → Bool
  | .expectYNone _ => true
  | .xArity _ _ _ => true
  | .yArity _ _ _ => true
  | .missingValidation => true
  | .invalidTuner _ => true
  | _ => false

/-- `[a.shape for a in nest.flatten(x)]`: the shape of each leaf; taking
`.shape` of a non-array leaf (`None` or a dataset nested inside raw data)
raises `AttributeError`. -/
def shapesOfRaw (o : PyObj) : Except PyError (List (List Nat)) :=
  (pyFlatten o).mapM fun l =>
    match l with
    | .arr s => .ok s
    | _ => .error .attributeErr

/-- `AutoModel._check_data_format` (auto_model.py lines 317-353): checks
that the data has the same number of IOs as the model, raising the
`ValueError`s of the source in source order. -/
def checkDataFormat (nIn nOut : Nat) (x y : PyObj)
    (validation : Bool) (predict : Bool) : Except PyError Unit := do
  if x.isDataset && !(y == .pynone) then
    throw (.expectYNone validation)
  let shapes : Nat × Nat ←
    match x with
    | .dataset struct _ =>
      if !predict then
        match struct with
        | .tup [a, b] => pure ((nestFlatten a).length, (nestFlatten b).length)
        | _ => throw .unpackErr
      else
        pure ((nestFlattenList (dataset_shape struct)).length, 0)
    | _ => do
      let xs ← shapesOfRaw x
      if !predict then
        let ys ← shapesOfRaw y
        pure (xs.length, ys.length)
      else
        pure (xs.length, 0)
  if shapes.1 ≠ nIn then
    throw (.xArity validation nIn shapes.1)
  if !predict && shapes.2 ≠ nOut then
    throw (.yArity validation nOut shapes.2)
  return ()

example :
    checkDataFormat 1 1 (.arr [10, 3]) (.arr [10]) false false = .ok () := rfl

example :
    checkDataFormat 2 1 (.arr [10, 3]) (.arr [10]) false false =
      .error (.xArity false 2 1) := rfl

example :
    checkDataFormat 1 1 (.dataset (.tup [.leaf [3], .leaf [1]]) 7) .pynone
      false false = .ok () := rfl

example :
    checkDataFormat 1 1 (.dataset (.tup [.leaf [3], .leaf [1]]) 7) (.arr [5])
      true false = .error (.expectYNone true) := rfl

instance {ε α : Type} [DecidableEq ε] [DecidableEq α] :
    DecidableEq (Except ε α) := fun a b =>
  match a, b with
  | .ok x, .ok y =>
    match decEq x y with
    | isTrue h => isTrue (by rw [h])
    | isFalse h => isFalse (by intro he; injection he; contradiction)
  | .error x, .error y =>
    match decEq x y with
    | isTrue h => isTrue (by rw [h])
    | isFalse h => isFalse (by intro he; injection he; contradiction)
  | .ok _, .error _ => isFalse (fun h => Except.noConfusion h)
  | .error _, .ok _ => isFalse (fun h => Except.noConfusion h)

/-- Which side of the data an Adapter belongs to: an input Node's adapter
(`self._input_adapters`) or a Head's adapter (`self._output_adapters`). -/
inductive Side where
  | xside : Side
  | yside : Side
deriving Repr, DecidableEq

/-- One observable Adapter invocation performed by `AutoModel._adapt`:
either `adapter.fit_transform(source)` (together with
`hm.config_from_adapter(adapter)`) or `adapter.transform(source)`, on the
adapter of the given side and slot. -/
inductive AdaptEvent where
  | fitTransform (side : Side) (slot : Nat) : AdaptEvent
  | transform (side : Side) (slot : Nat) : AdaptEvent
deriving Repr, DecidableEq

/-- `AutoModel._adapt` (auto_model.py lines 266-279): flattens the sources,
zips them with the hypermodels and adapters (`zip` truncates to the
shorter list), invokes one adapter per remaining source, and zips the
adapted slots into one dataset (a single slot is returned unwrapped).
Returns the element count of the resulting dataset together with the list
of adapter invocations in order. -/
def adapt (src : PyObj) (fit : Bool) (side : Side) (nSlots : Nat) :
    Nat × List AdaptEvent :=
  let sources := (pyFlatten src).take nSlots
  let events := (List.range sources.length).map
    (fun i => if fit then AdaptEvent.fitTransform side i else AdaptEvent.transform side i)
  let counts := sources.map objCount
  let count := if sources.length = 1 then counts.headD 0 else counts.min?.getD 0
  (count, events)

/-- The list of per-index slot datasets produced by
`[x.map(lambda *a: nest.flatten(a)[index]) for index in range(slots)]`:
one dataset per declared slot, each selecting one flattened leaf and
keeping the element count of the source dataset. -/
def sliceDatasets (leaves : List (List Nat)) (slots : Nat) (n : Nat) : PyObj :=
  .tupObj ((List.range slots).map (fun i => PyObj.dataset (.leaf (leaves.getD i [])) n))

/-- `AutoModel._process_xy` (auto_model.py lines 281-315): checks the data
format, de-structures a `tf.data.Dataset` x into per-slot datasets, adapts
x (and y outside predict mode) and zips the result.  Returns the element
count of the resulting dataset and the trace of adapter invocations. -/
def processXY (nIn nOut : Nat) (x y : PyObj)
    (fit validation predict : Bool) :
    Except PyError Nat × List AdaptEvent :=
  match checkDataFormat nIn nOut x y validation predict with
  | .error e => (.error e, [])
  | .ok _ =>
    let srcs : PyObj × PyObj :=
      match x with
      | .dataset struct n =>
        if !predict then
          match struct with
          | .tup [a, b] =>
            (sliceDatasets (nestFlatten a) nIn n,
             sliceDatasets (nestFlatten b) nOut n)
          | _ => (x, y)  -- unreachable: the format check unpacked the pair
        else
          (sliceDatasets (nestFlattenList (dataset_shape struct)) nIn n, y)
      | _ => (x, y)
    let xa := adapt srcs.1 fit .xside nIn
    if !predict then
      let ya := adapt srcs.2 fit .yside nOut
      (.ok (min xa.1 ya.1), xa.2 ++ ya.2)
    else
      (.ok xa.1, xa.2)

/-- The `validation_data` argument of `fit`: absent, a unified
`tf.data.Dataset`, or an `(x_val, y_val)` pair. -/
inductive VData where
  | vnone : VData
  | vds (d : PyObj) : VData
  | vpair (vx vy : PyObj) : VData
deriving Repr

/-- Python truthiness of the `validation_data` argument. -/
def VData.truthy : VData → Bool
  | .vnone => false
  | _ => true

/-- The `validation_split` fraction, represented as the rational
`num / den` (floating point is modelled by exact rationals). -/
structure Frac where
  num : Nat
  den : Nat
deriving Repr, DecidableEq

/-- Python truthiness of the `validation_split` float: `0.0` is falsy. -/
def Frac.truthy (f : Frac) : Bool := f.num != 0

/-- Modelled from the spec: `data_utils.split_dataset` is not under
`src/`.  Per the spec's validation split policy it performs a
deterministic split of the dataset into train/validation partitions of
(1-fraction)/fraction size, the validation partition taken from the
trailing portion of the dataset in its current order. -/
def split_dataset {α : Type} (elems : List α) (f : Frac) : List α × List α :=
  let n := elems.length
  let valSize := n * f.num / f.den
  (elems.take (n - valSize), elems.drop (n - valSize))

/-- The elements of a canonical dataset with `c` elements, identified by
their position in order. -/
def dsElems (c : Nat) : List Nat := List.range c

/-- Result of `AutoModel._prepare_data`: the train dataset, the validation
dataset, and the final value of `self._split_dataset` (the flag later
passed to `tuner.search` as `fit_on_val_data`). -/
structure PrepRes where
  train : List Nat
  val : List Nat
  splitFlag : Bool
deriving Repr, DecidableEq

/-- `AutoModel._prepare_data` (auto_model.py lines 355-379): requires a
validation set or a split fraction, checks the training data format,
converts the training data (fitting the adapters), then either converts
the explicit validation data (recording `_split_dataset = False`) or
splits the training dataset with `data_utils.split_dataset` (recording
`_split_dataset = True`). -/
def prepareData (nIn nOut : Nat) (x y : PyObj) (vd : VData) (vs : Frac) :
    Except PyError PrepRes × List AdaptEvent :=
  if vd.truthy = false ∧ vs.truthy = false then (.error .missingValidation, [])
  else
    match checkDataFormat nIn nOut x y false false with
    | .error e => (.error e, [])
    | .ok _ =>
      match processXY nIn nOut x y true false false with
      | (.error e, tr) => (.error e, tr)
      | (.ok c, tr) =>
        match vd with
        | .vnone =>
          let s := split_dataset (dsElems c) vs
          (.ok ⟨s.1, s.2, true⟩, tr)
        | .vds d =>
          match processXY nIn nOut d .pynone false true false with
          | (.error e, tr2) => (.error e, tr ++ tr2)
          | (.ok cv, tr2) => (.ok ⟨dsElems c, dsElems cv, false⟩, tr ++ tr2)
        | .vpair vx vy =>
          match processXY nIn nOut vx vy false true false with
          | (.error e, tr2) => (.error e, tr ++ tr2)
          | (.ok cv, tr2) => (.ok ⟨dsElems c, dsElems cv, false⟩, tr ++ tr2)

/-- `dataset.map(lambda *x: x[0])`: the element is unpacked into varargs,
so a single-tensor element is kept as is, the first component of a tuple
element is selected, and an empty tuple element raises `IndexError`. -/
def mapFirstVar (struct : Nest) (n : Nat) : Except PyError PyObj :=
  match struct with
  | .leaf s => .ok (.dataset (.leaf s) n)
  | .tup (a :: _) => .ok (.dataset a n)
  | .tup [] => .error .indexErr

/-- `dataset.map(lambda x, y: x)`: requires a two-component element and
selects the first component; any other element arity raises `TypeError`. -/
def mapBinary (struct : Nest) (n : Nat) : Except PyError PyObj :=
  match struct with
  | .tup [a, _] => .ok (.dataset a n)
  | _ => .error .typeErr

/-- `AutoModel._get_x` (auto_model.py lines 381-396): de-structures an
already-batched unified dataset into prediction input only, branching on
the dataset's element structure. -/
def getX (nIn nOut : Nat) (struct : Nest) (n : Nat) : Except PyError PyObj :=
  let shapes := dataset_shape struct
  if shapes.length ≤ 1 then mapFirstVar struct n
  else if shapes.any Nest.isTup then mapBinary struct n
  else if shapes.length = 2 ∧ nIn = 1 ∧ nOut = 1 then mapBinary struct n
  else .ok (.dataset struct n)

/-- The data-preparation part of `AutoModel.predict` (auto_model.py lines
410-414): a `tf.data.Dataset` x goes through `_get_x` and `_process_xy`
in predict mode; any other x is passed directly to `_adapt` with the
input adapters. -/
def predictPrepare (nIn nOut : Nat) (x : PyObj) :
    Except PyError Nat × List AdaptEvent :=
  match x with
  | .dataset struct n =>
    match getX nIn nOut struct n with
    | .error e => (.error e, [])
    | .ok x2 => processXY nIn nOut x2 .pynone false false true
  | _ =>
    let a := adapt x false .xside nIn
    (.ok a.1, a.2)

example :
    predictPrepare 1 1 (.tupObj [.arr [4, 2], .arr [4, 2]]) =
      (.ok 4, [.transform .xside 0]) := rfl

example :
    prepareData 1 1 (.arr [10, 3]) (.arr [10]) .vnone ⟨1, 5⟩ =
      (.ok ⟨[0, 1, 2, 3, 4, 5, 6, 7], [8, 9], true⟩,
        [.fitTransform .xside 0, .fitTransform .yside 0]) := by decide

/-- The semantic kind of an input Node (`autokeras.nodes`): the four
`isinstance` classes dispatched on by `AutoModel._assemble`, plus a
generic kind for any other `Input`. -/
inductive InputKind where
  | image : InputKind
  | text : InputKind
  | structured : InputKind
  | timeseries : InputKind
  | generic : InputKind
deriving Repr, DecidableEq

/-- A Block of the search space, identified by what `auto_model.py`
instantiates or receives: the four default encoder blocks, the default
`Merge` block, and user-declared Heads (identified by an id). -/
inductive BlockType where
  | imageBlock : BlockType
  | textBlock : BlockType
  | structuredDataBlock : BlockType
  | timeseriesBlock : BlockType
  | merge : BlockType
  | headBlock (id : Nat) : BlockType
deriving Repr, DecidableEq

/-- A Node of the architecture graph: either a user-declared input Node
(with its semantic kind) or the output Node produced by applying a Block
to argument Nodes (`in_blocks` of such a node is the producing Block). -/
inductive ANode where
  | input (k : InputKind) (id : Nat) : ANode
  | blockOut (b : BlockType) (args : List ANode) : ANode
deriving Repr

mutual

def ANode.decEq : (a b : ANode) → Decidable (a = b)
  | .input k i, .input l j =>
    match instDecidableEqInputKind k l, Nat.decEq i j with
    | isTrue h1, isTrue h2 => isTrue (by rw [h1, h2])
    | isFalse h1, _ => isFalse (by intro he; injection he; contradiction)
    | isTrue _, isFalse h2 => isFalse (by intro he; injection he; contradiction)
  | .blockOut b xs, .blockOut c ys =>
    match instDecidableEqBlockType b c, ANode.decEqList xs ys with
    | isTrue h1, isTrue h2 => isTrue (by rw [h1, h2])
    | isFalse h1, _ => isFalse (by intro he; injection he; contradiction)
    | isTrue _, isFalse h2 => isFalse (by intro he; injection he; contradiction)
  | .input _ _, .blockOut _ _ => isFalse (fun h => ANode.noConfusion h)
  | .blockOut _ _, .input _ _ => isFalse (fun h => ANode.noConfusion h)

def ANode.decEqList : (a b : List ANode) → Decidable (a = b)
  | [], [] => isTrue rfl
  | [], _ :: _ => isFalse (fun h => List.noConfusion h)
  | _ :: _, [] => isFalse (fun h => List.noConfusion h)
  | x :: xs, y :: ys =>
    match ANode.decEq x y, ANode.decEqList xs ys with
    | isTrue h1, isTrue h2 => isTrue (by rw [h1, h2])
    | isFalse h1, _ => isFalse (by intro he; injection he; contradiction)
    | isTrue _, isFalse h2 => isFalse (by intro he; injection he; contradiction)

end

instance : DecidableEq ANode := ANode.decEq

/-- The default encoder Blocks `AutoModel._assemble` instantiates for one
input node: the loop body's four `isinstance` tests in source order
(`TextInput`, `ImageInput`, `StructuredDataInput`, `TimeseriesInput`);
an unrecognized input contributes none.  The input-node class hierarchy
lives in `autokeras.nodes`, outside `src/`; kinds are modelled as the
spec's closed image/text/structured/timeseries enumeration, so each input
matches at most one test. -/
def encoderBlocks (n : ANode) : List BlockType :=
  match n with
  | .input .text _ => [.textBlock]
  | .input .image _ => [.imageBlock]
  | .input .structured _ => [.structuredDataBlock]
  | .input .timeseries _ => [.timeseriesBlock]
  | _ => []

/-- Modelled from the spec: `graph_module.Graph` is not under `src/`; per
the spec's functional-mode contract it records the declared input Nodes
and output Nodes as the Graph's boundary. -/
structure Graph where
  inputs : List ANode
  outputs : List ANode
deriving Repr, DecidableEq

/-- `AutoModel._assemble` (auto_model.py lines 169-193): one default
encoder Block per recognized input produces the middle nodes; more than
one middle node is combined by a default `Merge` block, exactly one is
used directly, and zero middle nodes hits `middle_nodes[0]` on an empty
list (`IndexError`).  Every Head is applied to the combined node and the
Graph is built from the inputs and the produced output nodes.  Also
returns the list of Blocks instantiated by this call, in order. -/
def assembleMiddles (ins : List ANode) : List ANode :=
  ins.flatMap (fun n => (encoderBlocks n).map (fun b => ANode.blockOut b [n]))

def assemble (ins : List ANode) (heads : List Nat) :
    Except PyError Graph × List BlockType :=
  let encTrace := ins.flatMap encoderBlocks
  match assembleMiddles ins with
  | [] => (.error .indexErr, encTrace)
  | [m] =>
    (.ok ⟨ins, heads.map (fun h => ANode.blockOut (.headBlock h) [m])⟩, encTrace)
  | ms =>
    (.ok ⟨ins,
        heads.map (fun h => ANode.blockOut (.headBlock h) [ANode.blockOut .merge ms])⟩,
      encTrace ++ [.merge])

/-- One entry of the `outputs` argument of the `AutoModel` constructor:
either a Node (functional API) or a bare Head (input/output API). -/
inductive OutDecl where
  | node (n : ANode) : OutDecl
  | headDecl (id : Nat) : OutDecl
deriving Repr

def OutDecl.decEq2 : (a b : OutDecl) → Decidable (a = b)
  | .node n, .node m =>
    match ANode.decEq n m with
    | isTrue h => isTrue (by rw [h])
    | isFalse h => isFalse (by intro he; injection he; contradiction)
  | .headDecl i, .headDecl j =>
    match Nat.decEq i j with
    | isTrue h => isTrue (by rw [h])
    | isFalse h => isFalse (by intro he; injection he; contradiction)
  | .node _, .headDecl _ => isFalse (fun h => OutDecl.noConfusion h)
  | .headDecl _, .node _ => isFalse (fun h => OutDecl.noConfusion h)

instance : DecidableEq OutDecl := OutDecl.decEq2

/-- `isinstance(output, node_module.Node)`. -/
def OutDecl.isNode : OutDecl → Bool
  | .node _ => true
  | .headDecl _ => false

/-- `isinstance(output, head_module.Head)`. -/
def OutDecl.isHead : OutDecl → Bool
  | .node _ => false
  | .headDecl _ => true

def OutDecl.nodeOf : OutDecl → Option ANode
  | .node n => some n
  | .headDecl _ => none

def OutDecl.headIdOf : OutDecl → Option Nat
  | .node _ => none
  | .headDecl i => some i

/-- `AutoModel._build_graph` (auto_model.py lines 195-204): if every
output is a Node the Graph is built directly from the declared boundary;
if every output is a Head, `_assemble` runs and `self.outputs` is
overwritten with `graph.outputs`; otherwise neither branch assigns
`graph` and the trailing `return graph` hits an unbound local variable
(`UnboundLocalError`).  Returns the graph together with the new value of
`self.outputs`, and the Blocks instantiated. -/
def buildGraph (ins : List ANode) (outs : List OutDecl) :
    Except PyError (Graph × List ANode) × List BlockType :=
  if outs.all OutDecl.isNode then
    let nodes := outs.filterMap OutDecl.nodeOf
    (.ok (⟨ins, nodes⟩, nodes), [])
  else if outs.all OutDecl.isHead then
    match assemble ins (outs.filterMap OutDecl.headIdOf) with
    | (.ok g, tr) => (.ok (g, g.outputs), tr)
    | (.error e, tr) => (.error e, tr)
  else
    (.error .unboundLocalErr, [])

/-- The `tuner` constructor argument: a string naming a tuner, or a
subclass of `AutoTuner` passed directly. -/
inductive TunerArg where
  | tstr (s : String) : TunerArg
  | tclass (name : String) : TunerArg
deriving Repr, DecidableEq

/-- The keys of the `TUNER_CLASSES` dict (auto_model.py lines 22-27). -/
def TUNER_CLASSES : List String := ["bayesian", "random", "hyperband", "greedy"]

/-- `get_tuner_class` (auto_model.py lines 30-36) applied to a string
argument: returns the tuner class for a known name, otherwise raises the
`ValueError` whose message lists the four valid choices. -/
def getTunerClass (s : String) : Except PyError String :=
  if s ∈ TUNER_CLASSES then .ok s else .error (.invalidTuner s)

/-- An observable step of `AutoModel.__init__`, in execution order:
seeding the process-wide numpy/tensorflow RNGs, building the graph
(`self._build_graph()`), and constructing the Tuner (which receives
`seed=self.seed`). -/
inductive InitEvent where
  | rngSeeded (s : Int) : InitEvent
  | graphBuilt : InitEvent
  | tunerConstructed (seed : Option Int) : InitEvent
deriving Repr, DecidableEq

/-- The state of a constructed `AutoModel`. -/
structure AutoModelState where
  inputs : List ANode
  outputs : List ANode
  seed : Option Int
  graph : Graph
  tunerClass : String
  splitDataset : Bool
  heads : List BlockType
deriving Repr, DecidableEq

/-- Python truthiness of the `seed` argument (`if seed:`): `None` and `0`
are falsy, every other integer is truthy. -/
def truthySeed : Option Int → Bool
  | none => false
  | some v => v != 0

/-- `output_node.in_blocks[0]`: the Block producing a node; an input node
has no producing Block, so indexing raises `IndexError`. -/
def inBlock0 : ANode → Except PyError BlockType
  | .blockOut b _ => .ok b
  | .input _ _ => .error .indexErr

/-- The RNG-seeding steps performed by `AutoModel.__init__`:
`np.random.seed(seed)` and `tf.random.set_seed(seed)` run only under
`if seed:`, i.e. only for a truthy seed. -/
def seedEvents (seed : Option Int) : List InitEvent :=
  match seed with
  | some v => if v != 0 then [.rngSeeded v] else []
  | none => []

/-- `AutoModel.__init__` (auto_model.py lines 102-143): stores the seed,
seeds the RNGs only when the seed is truthy, builds the graph, resolves a
string tuner argument through `get_tuner_class`, constructs the Tuner
with `seed=self.seed`, initializes `self._split_dataset = False` and
extracts the Heads from the output nodes.  Returns the constructed state
and the trace of observable steps in order. -/
def initAutoModel (ins : List ANode) (outs : List OutDecl)
    (tunerArg : TunerArg) (seed : Option Int) :
    Except PyError AutoModelState × List InitEvent :=
  let ev0 := seedEvents seed
  match buildGraph ins outs with
  | (.error e, _) => (.error e, ev0)
  | (.ok (g, newOuts), _) =>
    let ev1 := ev0 ++ [InitEvent.graphBuilt]
    let cls : Except PyError String :=
      match tunerArg with
      | .tstr s => getTunerClass s
      | .tclass n => .ok n
    match cls with
    | .error e => (.error e, ev1)
    | .ok c =>
      let ev2 := ev1 ++ [InitEvent.tunerConstructed seed]
      match newOuts.mapM inBlock0 with
      | .error e => (.error e, ev2)
      | .ok hs => (.ok ⟨ins, newOuts, seed, g, c, false, hs⟩, ev2)

example :
    buildGraph [.input .image 0] [.node (.input .image 0), .headDecl 1] =
      (.error .unboundLocalErr, []) := rfl

example :
    assemble [.input .generic 0] [7] = (.error .indexErr, []) := rfl

example :
    initAutoModel [.input .image 0] [.headDecl 0] (.tstr "unknown") none =
      (.error (.invalidTuner "unknown"), [.graphBuilt]) := rfl

example :
    initAutoModel [.input .image 0] [.headDecl 0] (.tstr "greedy") (some 0) =
      (.ok ⟨[.input .image 0],
            [.blockOut (.headBlock 0) [.blockOut .imageBlock [.input .image 0]]],
            some 0,
            ⟨[.input .image 0],
             [.blockOut (.headBlock 0) [.blockOut .imageBlock [.input .image 0]]]⟩,
            "greedy", false, [.headBlock 0]⟩,
        [.graphBuilt, .tunerConstructed (some 0)]) := rfl

/-- Helper: `_process_xy` propagates a `_check_data_format` failure
without invoking any adapter. -/
theorem processXY_of_check_error {nIn nOut : Nat} {x y : PyObj}
    {val predict : Bool} (fit : Bool) {e : PyError}
    (h : checkDataFormat nIn nOut x y val predict = .error e) :
    processXY nIn nOut x y fit val predict = (.error e, []) := by
  simp [processXY, h]

/-- C7: for every fit call where neither a validation set nor a split
fraction is supplied (both `validation_data` and `validation_split`
absent/falsy), `_prepare_data` raises the missing-validation `ValueError`
synchronously, before any data conversion or adapter fitting (the adapter
trace is empty). -/
theorem C7_missing_validation (nIn nOut : Nat) (x y : PyObj) (vs : Frac)
    (h : vs.truthy = false) :
    prepareData nIn nOut x y .vnone vs = (.error .missingValidation, []) := by
  simp [prepareData, VData.truthy, h]

theorem C7_missing_validation_witness :
    prepareData 1 1 (.arr [10, 3]) (.arr [10]) .vnone ⟨0, 1⟩ =
      (.error .missingValidation, []) :=
  C7_missing_validation 1 1 (.arr [10, 3]) (.arr [10]) ⟨0, 1⟩ rfl

/-- C8: whenever x is an already-unified dataset together with a non-null
y — in any `_process_xy` call (training, validation or evaluation data)
and at the training-data check of `_prepare_data` — the pipeline raises
the `ValueError` reporting the condition, with an empty adapter trace for
that call (no adapter fitting on that data); the message names the
condition and the side. -/
theorem C8_dataset_with_y :
    (∀ (nIn nOut : Nat) (struct : Nest) (n : Nat) (y : PyObj)
       (fit val predict : Bool), y ≠ .pynone →
       processXY nIn nOut (.dataset struct n) y fit val predict =
         (.error (.expectYNone val), [])) ∧
    (∀ (nIn nOut : Nat) (struct : Nest) (n : Nat) (y : PyObj)
       (vd : VData) (vs : Frac), y ≠ .pynone →
       (vd.truthy || vs.truthy) = true →
       prepareData nIn nOut (.dataset struct n) y vd vs =
         (.error (.expectYNone false), [])) ∧
    (∀ val : Bool, (PyError.expectYNone val).msg =
       "Expect y is None when x is tf.data.Dataset" ++ inValStr val ++ ".") := by
  have hc : ∀ (nIn nOut : Nat) (struct : Nest) (n : Nat) (y : PyObj)
      (val predict : Bool), y ≠ .pynone →
      checkDataFormat nIn nOut (.dataset struct n) y val predict =
        .error (.expectYNone val) := by
    intro nIn nOut struct n y val predict hy
    simp [checkDataFormat, PyObj.isDataset, beq_eq_false_iff_ne.mpr hy,
      throw, throwThe, MonadExceptOf.throw, Bind.bind, Except.bind]
  refine ⟨?_, ?_, ?_⟩
  · intro nIn nOut struct n y fit val predict hy
    exact processXY_of_check_error fit (hc nIn nOut struct n y val predict hy)
  · intro nIn nOut struct n y vd vs hy hv
    have hcond : ¬ (vd.truthy = false ∧ vs.truthy = false) := by
      intro hco
      rw [hco.1, hco.2] at hv
      simp at hv
    simp [prepareData, hcond, hc nIn nOut struct n y false false hy]
  · intro val
    rfl

theorem C8_dataset_with_y_witness :
    processXY 1 1 (.dataset (.tup [.leaf [3], .leaf [1]]) 7) (.arr [5])
        false true false = (.error (.expectYNone true), []) :=
  C8_dataset_with_y.1 1 1 (.tup [.leaf [3], .leaf [1]]) 7 (.arr [5])
    false true false (by decide)

/-- C2 counterexample: with outputs mixing a Node and a bare Head, graph
construction fails via the unbound local `graph` at `return graph`
(`UnboundLocalError`), which is not an explicitly raised structured error
(no `GraphStructureError`-like `ValueError` is raised). -/
theorem C2_counterexample :
    buildGraph [.input .image 0]
        [.node (.blockOut .imageBlock [.input .image 0]), .headDecl 1] =
      (.error .unboundLocalErr, []) ∧
    PyError.isExplicitRaise .unboundLocalErr = false :=
  ⟨rfl, rfl⟩

/-- C2 (amended): for every outputs list mixing Node and bare Head
instances, `_build_graph` fails before any Block is instantiated (the
instantiated-Block trace is empty) and never silently assembles — but the
failure is an `UnboundLocalError` at `return graph`, not an explicitly
raised `GraphStructureError`. -/
theorem C2_mixed_outputs_fail (ins : List ANode) (outs : List OutDecl)
    (h1 : outs.any OutDecl.isNode = true) (h2 : outs.any OutDecl.isHead = true) :
    buildGraph ins outs = (.error .unboundLocalErr, []) := by
  have ha : ¬ outs.all OutDecl.isNode = true := by
    intro hall
    rcases List.any_eq_true.mp h2 with ⟨o, ho, hh⟩
    have := List.all_eq_true.mp hall o ho
    cases o <;> simp_all [OutDecl.isNode, OutDecl.isHead]
  have hb : ¬ outs.all OutDecl.isHead = true := by
    intro hall
    rcases List.any_eq_true.mp h1 with ⟨o, ho, hh⟩
    have := List.all_eq_true.mp hall o ho
    cases o <;> simp_all [OutDecl.isNode, OutDecl.isHead]
  rw [Bool.not_eq_true] at ha hb
  simp [buildGraph, ha, hb]

theorem C2_mixed_outputs_fail_witness :
    buildGraph [.input .text 0] [.headDecl 0, .node (.input .text 0)] =
      (.error .unboundLocalErr, []) :=
  C2_mixed_outputs_fail _ _ rfl rfl

/-- C3 counterexample: in inferred-mode assembly with zero middle nodes
(the only input has an unrecognized kind), assembly fails with the
interpreter's `IndexError` from `middle_nodes[0]` on an empty list — not
with an explicitly raised `NoInputsError`-like error. -/
theorem C3_counterexample :
    assemble [.input .generic 0] [7] = (.error .indexErr, []) ∧
    PyError.isExplicitRaise .indexErr = false :=
  ⟨rfl, rfl⟩

/-- C3 (amended): after the per-input encoder dispatch of `_assemble`,
more than one middle node is combined with one default `Merge` block into
a single combined node, exactly one middle node is used directly, and
zero middle nodes make assembly fail — but via the `IndexError` of
`middle_nodes[0]` on an empty list, not a dedicated `NoInputsError`. -/
theorem C3_middle_node_cases (ins : List ANode) (heads : List Nat) :
    (assembleMiddles ins = [] →
      assemble ins heads = (.error .indexErr, ins.flatMap encoderBlocks)) ∧
    (∀ m, assembleMiddles ins = [m] →
      assemble ins heads =
        (.ok ⟨ins, heads.map (fun h => ANode.blockOut (.headBlock h) [m])⟩,
         ins.flatMap encoderBlocks)) ∧
    (∀ m1 m2 ms, assembleMiddles ins = m1 :: m2 :: ms →
      assemble ins heads =
        (.ok ⟨ins, heads.map (fun h => ANode.blockOut (.headBlock h)
            [ANode.blockOut .merge (m1 :: m2 :: ms)])⟩,
         ins.flatMap encoderBlocks ++ [.merge])) := by
  refine ⟨?_, ?_, ?_⟩
  · intro h
    simp [assemble, h]
  · intro m h
    simp [assemble, h]
  · intro m1 m2 ms h
    simp [assemble, h]

theorem C3_middle_node_cases_witness :
    assemble [.input .image 0] [3] =
      (.ok ⟨[.input .image 0],
            [.blockOut (.headBlock 3) [.blockOut .imageBlock [.input .image 0]]]⟩,
       [.imageBlock]) :=
  (C3_middle_node_cases _ _).2.1 _ rfl

/-- C4 counterexample: constructing with `tuner='unknown'` raises the
invalid-tuner `ValueError`, but only after `self._build_graph()` has run:
the init trace already contains the graph-built step when the error is
raised, refuting "before any graph-assembly work". -/
theorem C4_counterexample :
    initAutoModel [.input .image 0] [.headDecl 0] (.tstr "unknown") none =
      (.error (.invalidTuner "unknown"), [.graphBuilt]) ∧
    InitEvent.graphBuilt ∈
      (initAutoModel [.input .image 0] [.headDecl 0] (.tstr "unknown") none).2 :=
  ⟨rfl, by decide⟩

/-- C4 (amended): for every string tuner argument outside
greedy/bayesian/hyperband/random, `AutoModel.__init__` raises the
`ValueError` whose message lists the four valid choices — but only after
graph assembly: `self._build_graph()` (line 124) precedes the
`get_tuner_class` call (line 126), so the init trace at the failure is
the seeding steps followed by the graph-built step. -/
theorem C4_invalid_tuner (ins : List ANode) (outs : List OutDecl)
    (seed : Option Int) (s : String) (hs : s ∉ TUNER_CLASSES)
    (g : Graph) (no : List ANode) (tr : List BlockType)
    (hb : buildGraph ins outs = (.ok (g, no), tr)) :
    initAutoModel ins outs (.tstr s) seed =
      (.error (.invalidTuner s), seedEvents seed ++ [.graphBuilt]) ∧
    (PyError.invalidTuner s).msg =
      "The value " ++ s ++ " passed for argument tuner is invalid, " ++
        "expected one of \"greedy\", \"random\", \"hyperband\", \"bayesian\"." := by
  constructor
  · simp [initAutoModel, hb, getTunerClass, hs]
  · rfl

theorem C4_invalid_tuner_witness :
    initAutoModel [.input .text 0] [.headDecl 2] (.tstr "grid") (some 5) =
      (.error (.invalidTuner "grid"), [.rngSeeded 5, .graphBuilt]) :=
  (C4_invalid_tuner [.input .text 0] [.headDecl 2] (some 5) "grid"
    (by decide) _ _ _ rfl).1

/-- Helper: a successful `_process_xy` call implies its internal
`_check_data_format` succeeded. -/
theorem check_ok_of_processXY_ok {nIn nOut : Nat} {x y : PyObj}
    {fit val predict : Bool} {c : Nat} {tr : List AdaptEvent}
    (h : processXY nIn nOut x y fit val predict = (.ok c, tr)) :
    checkDataFormat nIn nOut x y val predict = .ok () := by
  cases hc : checkDataFormat nIn nOut x y val predict with
  | error e =>
    rw [processXY_of_check_error fit hc] at h
    simp at h
  | ok u => cases u; rfl

/-- C5: validation split policy of fit.  When explicit validation data is
supplied (as a pair or as a dataset), it wins — the training dataset is
left whole, the validation dataset is the processed explicit one, and
`_split_dataset` (the `fit_on_val_data` flag later passed to the Tuner)
is `False` — regardless of any `validation_split` value.  When only a
split fraction is supplied, the flag is `True` and the training dataset
is split by `data_utils.split_dataset` (modelled from the spec), which
deterministically takes the trailing fraction of the dataset in its
current order as validation. -/
theorem C5_validation_split_policy :
    (∀ (nIn nOut : Nat) (x y vx vy : PyObj) (vs : Frac) (c cv : Nat)
       (tr tr2 : List AdaptEvent),
       processXY nIn nOut x y true false false = (.ok c, tr) →
       processXY nIn nOut vx vy false true false = (.ok cv, tr2) →
       prepareData nIn nOut x y (.vpair vx vy) vs =
         (.ok ⟨dsElems c, dsElems cv, false⟩, tr ++ tr2)) ∧
    (∀ (nIn nOut : Nat) (x y d : PyObj) (vs : Frac) (c cv : Nat)
       (tr tr2 : List AdaptEvent),
       processXY nIn nOut x y true false false = (.ok c, tr) →
       processXY nIn nOut d .pynone false true false = (.ok cv, tr2) →
       prepareData nIn nOut x y (.vds d) vs =
         (.ok ⟨dsElems c, dsElems cv, false⟩, tr ++ tr2)) ∧
    (∀ (nIn nOut : Nat) (x y : PyObj) (vs : Frac) (c : Nat)
       (tr : List AdaptEvent), vs.truthy = true →
       processXY nIn nOut x y true false false = (.ok c, tr) →
       prepareData nIn nOut x y .vnone vs =
         (.ok ⟨(split_dataset (dsElems c) vs).1,
               (split_dataset (dsElems c) vs).2, true⟩, tr)) ∧
    (∀ (elems : List Nat) (f : Frac),
       (split_dataset elems f).1 ++ (split_dataset elems f).2 = elems ∧
       (split_dataset elems f).1 =
         elems.take (elems.length - elems.length * f.num / f.den) ∧
       (split_dataset elems f).2 =
         elems.drop (elems.length - elems.length * f.num / f.den) ∧
       (split_dataset elems f).1.length =
         elems.length - elems.length * f.num / f.den) := by
  refine ⟨?_, ?_, ?_, ?_⟩
  · intro nIn nOut x y vx vy vs c cv tr tr2 h1 h2
    simp [prepareData, VData.truthy, check_ok_of_processXY_ok h1, h1, h2]
  · intro nIn nOut x y d vs c cv tr tr2 h1 h2
    simp [prepareData, VData.truthy, check_ok_of_processXY_ok h1, h1, h2]
  · intro nIn nOut x y vs c tr hv h1
    simp [prepareData, VData.truthy, hv, check_ok_of_processXY_ok h1, h1]
  · intro elems f
    refine ⟨List.take_append_drop _ _, rfl, rfl, ?_⟩
    simp [split_dataset]

theorem C5_validation_split_policy_witness :
    prepareData 1 1 (.arr [10, 3]) (.arr [10]) .vnone ⟨1, 5⟩ =
      (.ok ⟨(split_dataset (dsElems 10) ⟨1, 5⟩).1,
            (split_dataset (dsElems 10) ⟨1, 5⟩).2, true⟩,
        [.fitTransform .xside 0, .fitTransform .yside 0]) :=
  C5_validation_split_policy.2.2.1 1 1 (.arr [10, 3]) (.arr [10]) ⟨1, 5⟩ 10
    [.fitTransform .xside 0, .fitTransform .yside 0] rfl rfl

/-- The default encoder Block selected for each recognized input kind
(none for an unrecognized kind). -/
def defaultEncoder : InputKind → Option BlockType
  | .image => some .imageBlock
  | .text => some .textBlock
  | .structured => some .structuredDataBlock
  | .timeseries => some .timeseriesBlock
  | .generic => none

/-- The middle nodes of inferred assembly for inputs given as
(kind, id) pairs, one per input: the input's default encoder Block
applied to it. -/
def inferredMiddles (ks : List (InputKind × Nat)) : List ANode :=
  ks.map (fun p =>
    ANode.blockOut ((defaultEncoder p.1).getD .merge) [ANode.input p.1 p.2])

/-- The combined node of inferred assembly: exactly one middle node is
used directly, otherwise the middle nodes are merged by a default
`Merge` block. -/
def combineNodes : List ANode → ANode
  | [m] => m
  | ms => ANode.blockOut .merge ms

/-- Helper: on inputs of recognized kinds, `_assemble`'s per-input
dispatch produces exactly the default-encoder middle nodes, one per
input, in input order. -/
theorem assembleMiddles_inferred (ks : List (InputKind × Nat))
    (h : ∀ p ∈ ks, defaultEncoder p.1 ≠ none) :
    assembleMiddles (ks.map (fun p => ANode.input p.1 p.2)) =
      inferredMiddles ks := by
  induction ks with
  | nil => rfl
  | cons p ps ih =>
    have hp : defaultEncoder p.1 ≠ none := h p (by simp)
    have ihps := ih (fun q hq => h q (List.mem_cons_of_mem _ hq))
    rcases p with ⟨k, i⟩
    cases k <;>
      simp_all [assembleMiddles, inferredMiddles, encoderBlocks, defaultEncoder]

/-- Helper: `_assemble` on recognized inputs and head ids builds the
graph whose outputs apply each head to the combined middle node. -/
theorem assemble_inferred (ks : List (InputKind × Nat)) (hs2 : List Nat)
    (hrec : ∀ p ∈ ks, defaultEncoder p.1 ≠ none) (hk : ks ≠ []) :
    ∃ tr, assemble (ks.map (fun p => ANode.input p.1 p.2)) hs2 =
      (.ok ⟨ks.map (fun p => ANode.input p.1 p.2),
            hs2.map (fun h => ANode.blockOut (.headBlock h)
              [combineNodes (inferredMiddles ks)])⟩, tr) := by
  have hmid := assembleMiddles_inferred ks hrec
  obtain ⟨p0, krest, rfl⟩ := List.exists_cons_of_ne_nil hk
  simp only [List.map, inferredMiddles] at hmid
  cases krest with
  | nil =>
    refine ⟨([ANode.input p0.1 p0.2].flatMap encoderBlocks), ?_⟩
    simp only [List.map] at hmid
    simp only [assemble, hmid, inferredMiddles, List.map, combineNodes]
  | cons p1 krest2 =>
    refine ⟨(((p0 :: p1 :: krest2).map
      (fun p => ANode.input p.1 p.2)).flatMap encoderBlocks) ++ [.merge], ?_⟩
    simp only [List.map] at hmid
    simp only [assemble, hmid, inferredMiddles, List.map, combineNodes]

/-- C6: in inferred mode (all declared inputs of recognized kind, all
declared outputs bare Heads), `_build_graph` dispatches one default
encoder Block per input, applies every declared Head to the (merged)
combined node, constructs the Graph from the original input nodes and
the produced output nodes, and writes the Graph's outputs back as the
orchestrator's declared outputs (the new `self.outputs` equals
`graph.outputs`, not the user-declared Heads). -/
theorem C6_inferred_assembly (ks : List (InputKind × Nat)) (hs : List Nat)
    (hrec : ∀ p ∈ ks, defaultEncoder p.1 ≠ none)
    (hk : ks ≠ []) (hh : hs ≠ []) :
    ∃ tr, buildGraph (ks.map (fun p => ANode.input p.1 p.2))
        (hs.map OutDecl.headDecl) =
      (.ok (⟨ks.map (fun p => ANode.input p.1 p.2),
             hs.map (fun h => ANode.blockOut (.headBlock h)
               [combineNodes (inferredMiddles ks)])⟩,
            hs.map (fun h => ANode.blockOut (.headBlock h)
              [combineNodes (inferredMiddles ks)])),
       tr) := by
  have hfil : ∀ l : List Nat,
      (l.map OutDecl.headDecl).filterMap OutDecl.headIdOf = l := by
    intro l
    induction l with
    | nil => rfl
    | cons a as iha => simp [List.filterMap_cons, OutDecl.headIdOf, iha]
  obtain ⟨h0, hrest, rfl⟩ := List.exists_cons_of_ne_nil hh
  have hnotall :
      ((h0 :: hrest).map OutDecl.headDecl).all OutDecl.isNode = false := by
    simp [OutDecl.isNode]
  have hallhead :
      ((h0 :: hrest).map OutDecl.headDecl).all OutDecl.isHead = true := by
    simp [List.all_eq_true, OutDecl.isHead]
  obtain ⟨tr, ha⟩ := assemble_inferred ks (h0 :: hrest) hrec hk
  refine ⟨tr, ?_⟩
  simp only [buildGraph, hnotall, hallhead, Bool.false_eq_true, if_false,
    if_true, hfil, ha]

theorem C6_inferred_assembly_witness :
    ∃ tr, buildGraph [.input .image 0, .input .text 1] [.headDecl 5] =
      (.ok (⟨[.input .image 0, .input .text 1],
             [.blockOut (.headBlock 5)
               [combineNodes (inferredMiddles [(.image, 0), (.text, 1)])]]⟩,
            [.blockOut (.headBlock 5)
              [combineNodes (inferredMiddles [(.image, 0), (.text, 1)])]]),
       tr) :=
  C6_inferred_assembly [(.image, 0), (.text, 1)] [5]
    (by decide) (by decide) (by decide)

/-- C9: `_get_x` classifies the element structure of an already-batched
unified dataset into exactly three recognized shapes — flat (one level,
arity ≤ 1): take the first element; paired (an element of the structure
is itself a tuple): take the x part; single-IO without explicit pairing
(exactly two top-level elements with exactly one declared input and one
declared output): take the x part — and every other shape is passed
through unchanged; `predict` routes a dataset x through `_get_x` before
`_process_xy`. -/
theorem C9_getx_classification :
    (∀ (nIn nOut : Nat) (struct : Nest) (n : Nat),
       (dataset_shape struct).length ≤ 1 →
       getX nIn nOut struct n = mapFirstVar struct n) ∧
    (∀ (nIn nOut : Nat) (struct : Nest) (n : Nat),
       ¬ (dataset_shape struct).length ≤ 1 →
       (dataset_shape struct).any Nest.isTup = true →
       getX nIn nOut struct n = mapBinary struct n) ∧
    (∀ (struct : Nest) (n : Nat),
       ¬ (dataset_shape struct).length ≤ 1 →
       (dataset_shape struct).any Nest.isTup = false →
       (dataset_shape struct).length = 2 →
       getX 1 1 struct n = mapBinary struct n) ∧
    (∀ (nIn nOut : Nat) (struct : Nest) (n : Nat),
       ¬ (dataset_shape struct).length ≤ 1 →
       (dataset_shape struct).any Nest.isTup = false →
       ¬ ((dataset_shape struct).length = 2 ∧ nIn = 1 ∧ nOut = 1) →
       getX nIn nOut struct n = .ok (.dataset struct n)) ∧
    (∀ (nIn nOut : Nat) (struct : Nest) (n : Nat) (x2 : PyObj),
       getX nIn nOut struct n = .ok x2 →
       predictPrepare nIn nOut (.dataset struct n) =
         processXY nIn nOut x2 .pynone false false true) := by
  refine ⟨?_, ?_, ?_, ?_, ?_⟩
  · intro nIn nOut struct n h
    simp [getX, h]
  · intro nIn nOut struct n h1 h2
    simp [getX, h1, h2]
  · intro struct n h1 h2 h3
    simp [getX, h1, h2, h3]
  · intro nIn nOut struct n h1 h2 h3
    simp [getX, h1, h2, h3]
  · intro nIn nOut struct n x2 h
    simp [predictPrepare, h]

theorem C9_getx_classification_witness :
    getX 1 1 (.leaf [5]) 3 = mapFirstVar (.leaf [5]) 3 :=
  C9_getx_classification.1 1 1 (.leaf [5]) 3 (by decide)

/-- Whether an init step is the RNG-seeding step. -/
def isRngEvent : InitEvent → Bool
  | .rngSeeded _ => true
  | _ => false

/-- C10: at `AutoModel` construction the process-wide numpy/tensorflow
RNGs are seeded iff the seed argument is truthy (`if seed:`): `None` and
`0` are falsy, every nonzero integer is truthy.  A successful
construction stores the seed argument unchanged in `self.seed` and
forwards exactly that value to the Tuner (`seed=self.seed`) — in
particular `seed=0` is accepted, stored and forwarded while performing
no RNG seeding. -/
theorem C10_seed_truthiness :
    (∀ (ins : List ANode) (outs : List OutDecl) (targ : TunerArg)
       (seed : Option Int),
       (initAutoModel ins outs targ seed).2.any isRngEvent = truthySeed seed) ∧
    (∀ (ins : List ANode) (outs : List OutDecl) (targ : TunerArg)
       (seed : Option Int) (st : AutoModelState) (ev : List InitEvent),
       initAutoModel ins outs targ seed = (.ok st, ev) →
       st.seed = seed ∧ InitEvent.tunerConstructed seed ∈ ev) ∧
    (truthySeed (some 0) = false ∧ truthySeed none = false ∧
     ∀ v : Int, v ≠ 0 → truthySeed (some v) = true) := by
  have h0 : ∀ seed : Option Int,
      (seedEvents seed).any isRngEvent = truthySeed seed := by
    intro seed
    cases seed with
    | none => rfl
    | some v =>
      simp only [seedEvents, truthySeed]
      cases hv : v != 0 <;> simp [isRngEvent]
  refine ⟨?_, ?_, rfl, rfl, ?_⟩
  · intro ins outs targ seed
    rcases hb : buildGraph ins outs with ⟨res, btr⟩
    cases res with
    | error e => simp [initAutoModel, hb, h0]
    | ok p =>
      rcases p with ⟨g, newOuts⟩
      cases targ with
      | tclass nm =>
        cases hm : List.mapM.loop inBlock0 newOuts [] <;>
          simp [initAutoModel, hb, hm, List.any_append, isRngEvent, h0]
      | tstr s2 =>
        cases hg : getTunerClass s2 with
        | error e =>
          simp [initAutoModel, hb, hg, List.any_append, isRngEvent, h0]
        | ok c =>
          cases hm : List.mapM.loop inBlock0 newOuts [] <;>
            simp [initAutoModel, hb, hg, hm, List.any_append, isRngEvent, h0]
  · intro ins outs targ seed st ev h
    rcases hb : buildGraph ins outs with ⟨res, btr⟩
    cases res with
    | error e => simp [initAutoModel, hb] at h
    | ok p =>
      rcases p with ⟨g, newOuts⟩
      have main : ∀ (c : String) (hs2 : List BlockType),
          newOuts.mapM inBlock0 = .ok hs2 →
          ((Except.ok (⟨ins, newOuts, seed, g, c, false, hs2⟩ : AutoModelState) :
              Except PyError AutoModelState),
            seedEvents seed ++ [InitEvent.graphBuilt] ++
              [InitEvent.tunerConstructed seed]) = (Except.ok st, ev) →
          st.seed = seed ∧ InitEvent.tunerConstructed seed ∈ ev := by
        intro c hs2 hm he
        simp only [Prod.mk.injEq, Except.ok.injEq] at he
        obtain ⟨h1, h2⟩ := he
        subst h1
        subst h2
        exact ⟨rfl, by simp⟩
      cases targ with
      | tclass nm =>
        cases hm : List.mapM.loop inBlock0 newOuts [] with
        | error e => simp [initAutoModel, hb, hm] at h
        | ok hs2 =>
          refine main nm hs2 hm ?_
          simpa [initAutoModel, hb, hm] using h
      | tstr s2 =>
        cases hg : getTunerClass s2 with
        | error e => simp [initAutoModel, hb, hg] at h
        | ok c =>
          cases hm : List.mapM.loop inBlock0 newOuts [] with
          | error e => simp [initAutoModel, hb, hg, hm] at h
          | ok hs2 =>
            refine main c hs2 hm ?_
            simpa [initAutoModel, hb, hg, hm] using h
  · intro v hv
    simp [truthySeed, hv]

theorem C10_seed_truthiness_witness :
    (⟨[.input .image 0],
      [.blockOut (.headBlock 0) [.blockOut .imageBlock [.input .image 0]]],
      some 0,
      ⟨[.input .image 0],
       [.blockOut (.headBlock 0) [.blockOut .imageBlock [.input .image 0]]]⟩,
      "greedy", false, [.headBlock 0]⟩ : AutoModelState).seed = some 0 ∧
    InitEvent.tunerConstructed (some 0) ∈
      [InitEvent.graphBuilt, InitEvent.tunerConstructed (some 0)] :=
  C10_seed_truthiness.2.1 [.input .image 0] [.headDecl 0] (.tstr "greedy")
    (some 0) _ _ rfl

/-- C1 counterexample: in predict mode with raw (non-dataset) x, no arity
validation happens before adapters run.  With one declared input and an
x of two arrays, the predict pipeline raises no error and invokes an
input adapter's `transform` (the extra array is silently dropped by the
`zip` truncation in `_adapt`). -/
theorem C1_counterexample :
    (pyFlatten (PyObj.tupObj [.arr [4, 2], .arr [4, 2]])).length = 2 ∧
    predictPrepare 1 1 (PyObj.tupObj [.arr [4, 2], .arr [4, 2]]) =
      (.ok 4, [.transform .xside 0]) :=
  ⟨rfl, rfl⟩

/-- C1 (amended): in fit and evaluate modes, and in predict mode when x
is a unified dataset, the pipeline validates arity before any conversion:
an arity mismatch makes `_check_data_format` raise the `ValueError`
naming the expected and actual counts and the side (x, y, or validation
data), and both `_process_xy` and `_prepare_data` propagate that error
with no adapter invoked.  In predict mode with raw (non-dataset) x,
however, no validation is performed: `predict` hands x directly to
`_adapt`, which invokes one `transform` per zip-truncated slot. -/
theorem C1_arity_validation :
    (∀ (nIn nOut : Nat) (x y : PyObj) (fit val predict : Bool) (e : PyError),
       checkDataFormat nIn nOut x y val predict = .error e →
       processXY nIn nOut x y fit val predict = (.error e, [])) ∧
    (∀ (nIn nOut : Nat) (x y : PyObj) (vd : VData) (vs : Frac) (e : PyError),
       (vd.truthy || vs.truthy) = true →
       checkDataFormat nIn nOut x y false false = .error e →
       prepareData nIn nOut x y vd vs = (.error e, [])) ∧
    (∀ (nIn nOut : Nat) (x y : PyObj) (val : Bool)
       (xs ys : List (List Nat)), x.isDataset = false →
       shapesOfRaw x = .ok xs → shapesOfRaw y = .ok ys → xs.length ≠ nIn →
       checkDataFormat nIn nOut x y val false =
         .error (.xArity val nIn xs.length)) ∧
    (∀ (nIn nOut : Nat) (x y : PyObj) (val : Bool)
       (xs ys : List (List Nat)), x.isDataset = false →
       shapesOfRaw x = .ok xs → shapesOfRaw y = .ok ys →
       xs.length = nIn → ys.length ≠ nOut →
       checkDataFormat nIn nOut x y val false =
         .error (.yArity val nOut ys.length)) ∧
    (∀ (nIn nOut : Nat) (a b : Nest) (n : Nat) (val : Bool),
       (nestFlatten a).length ≠ nIn →
       checkDataFormat nIn nOut (.dataset (.tup [a, b]) n) .pynone val false =
         .error (.xArity val nIn (nestFlatten a).length)) ∧
    (∀ (nIn nOut : Nat) (a b : Nest) (n : Nat) (val : Bool),
       (nestFlatten a).length = nIn → (nestFlatten b).length ≠ nOut →
       checkDataFormat nIn nOut (.dataset (.tup [a, b]) n) .pynone val false =
         .error (.yArity val nOut (nestFlatten b).length)) ∧
    (∀ (nIn nOut : Nat) (struct : Nest) (n : Nat),
       (nestFlattenList (dataset_shape struct)).length ≠ nIn →
       checkDataFormat nIn nOut (.dataset struct n) .pynone false true =
         .error (.xArity false nIn
           (nestFlattenList (dataset_shape struct)).length)) ∧
    (∀ (val : Bool) (exp act : Nat),
       (PyError.xArity val exp act).msg =
         "Expect x" ++ inValStr val ++ " to have " ++ toString exp ++
           " arrays, but got " ++ toString act) ∧
    (∀ (val : Bool) (exp act : Nat),
       (PyError.yArity val exp act).msg =
         "Expect y" ++ inValStr val ++ " to have " ++ toString exp ++
           " arrays, but got " ++ toString act) ∧
    (∀ (nIn nOut : Nat) (x : PyObj), x.isDataset = false →
       predictPrepare nIn nOut x =
         (.ok (adapt x false .xside nIn).1, (adapt x false .xside nIn).2)) ∧
    (∀ (nIn : Nat) (x : PyObj) (side : Side),
       (adapt x false side nIn).2 =
         (List.range (min nIn (pyFlatten x).length)).map
           (AdaptEvent.transform side)) := by
  refine ⟨?_, ?_, ?_, ?_, ?_, ?_, ?_, ?_, ?_, ?_, ?_⟩
  · intro nIn nOut x y fit val predict e h
    exact processXY_of_check_error fit h
  · intro nIn nOut x y vd vs e hg hc
    have hcond : ¬ (vd.truthy = false ∧ vs.truthy = false) := by
      intro hco
      rw [hco.1, hco.2] at hg
      simp at hg
    simp [prepareData, hcond, hc]
  · intro nIn nOut x y val xs ys hd hx hy hne
    cases x <;> simp_all [checkDataFormat, PyObj.isDataset,
      throw, throwThe, MonadExceptOf.throw, Bind.bind, Except.bind,
      pure, Except.pure]
  · intro nIn nOut x y val xs ys hd hx hy heq hne
    cases x <;> simp_all [checkDataFormat, PyObj.isDataset,
      throw, throwThe, MonadExceptOf.throw, Bind.bind, Except.bind,
      pure, Except.pure]
  · intro nIn nOut a b n val hne
    simp [checkDataFormat, PyObj.isDataset, hne,
      throw, throwThe, MonadExceptOf.throw, Bind.bind, Except.bind,
      pure, Except.pure]
  · intro nIn nOut a b n val heq hne
    simp [checkDataFormat, PyObj.isDataset, heq, hne,
      throw, throwThe, MonadExceptOf.throw, Bind.bind, Except.bind,
      pure, Except.pure]
  · intro nIn nOut struct n hne
    simp [checkDataFormat, PyObj.isDataset, hne,
      throw, throwThe, MonadExceptOf.throw, Bind.bind, Except.bind,
      pure, Except.pure]
  · intro val exp act
    rfl
  · intro val exp act
    rfl
  · intro nIn nOut x hd
    cases x <;> simp_all [predictPrepare, PyObj.isDataset]
  · intro nIn x side
    simp [adapt, List.length_take]

theorem C1_arity_validation_witness :
    checkDataFormat 2 1 (PyObj.arr [10, 3]) (PyObj.arr [10]) false false =
      .error (.xArity false 2 1) :=
  C1_arity_validation.2.2.1 2 1 (PyObj.arr [10, 3]) (PyObj.arr [10]) false
    [[10, 3]] [[10]] rfl rfl rfl (by decide)
